import Mathlib

/-!
Verification development for the kalman-vae repository.

Shallow embedding of the `KalmanVariationalAutoencoder` methods of
`kalman_vae.py` and of the evaluation helpers of `kvae/evaluation.py`.
The state-space module (`state_space_model.StateSpaceModel`), the sample
control (`sample_control.SampleControl`) and the encoder/decoder networks
are not among the provided source files, so they are modelled from the
spec, as flagged in the relevant doc comments.

Conventions: all numeric computation is over `ℚ` (idealized exact
arithmetic standing in for floating point); state and feature spaces are
one-dimensional (`z_dim = a_dim = 1`), so effective matrices are
rationals; external library primitives (Gaussian log-density, Cholesky
scale, the encoder/decoder networks, KL divergence) are supplied as
explicit function parameters in an `Externs` record; torch's
process-global random generator is threaded explicitly as an `Rng` state.
-/

/-- Batch-indexed rational values: one value per batch element. -/
abbrev Vec : Type := ℕ → ℚ

/-- Reduction pattern `.sum(0).mean(0).sum()` used by the likelihood terms of
`elbo`: sum over the time axis (`t < T`), mean over the batch axis (`b < N`). -/
def sumTimeMeanBatch (T N : ℕ) (f : ℕ → ℕ → ℚ) : ℚ :=
  (∑ b ∈ Finset.range N, ∑ t ∈ Finset.range T, f t b) / (N : ℚ)

/-- Source `create_continuous_mask` (evaluation.py lines 21-31), list phase:
`lst = [1.0] * seq_length`, then the loop
`for i in range(start_index, start_index + mask_length): lst[i] = 0.0`
with `start_index = (seq_length - mask_length) // 2`. -/
def createContinuousMaskList (seq_length mask_length : ℕ) : List ℚ :=
  (List.range mask_length).foldl
    (fun lst i => lst.set ((seq_length - mask_length) / 2 + i) 0)
    (List.replicate seq_length 1)

/-- Source `create_continuous_mask`: the list is broadcast to shape
`(seq_length, batch_size)` by `repeat(batch_size, 1).transpose(0, 1)`, so entry
`(t, b)` is `lst[t]` for every column `b`. -/
def createContinuousMask (seq_length mask_length _batch_size : ℕ) : ℕ → ℕ → ℚ :=
  fun t _b => (createContinuousMaskList seq_length mask_length).getD t 0

/-- Source `create_random_mask` (evaluation.py lines 34-41):
`(torch.rand((seq_length, batch_size)) >= mask_rate)` cast to 0/1, then rows `0`
and `seq_length - 1` overwritten with ones. `r` models the `torch.rand` draw, one
value in `[0, 1)` per `(t, b)` position. -/
def createRandomMask (r : ℕ → ℕ → ℚ) (seq_length _batch_size : ℕ)
    (mask_rate : ℚ) : ℕ → ℕ → ℚ :=
  fun t b =>
    if t = 0 ∨ t = seq_length - 1 then 1
    else if mask_rate ≤ r t b then 1 else 0

/-- Pixelwise error indicator `image != (reconstructed_image > 0.5)` of
`calculate_fraction_of_incorrect_pixels` (the boolean comparison result promoted
to a 0/1 value). -/
def pixelIncorrect (image recon : ℚ) : ℚ :=
  if image = (if (1 : ℚ) / 2 < recon then (1 : ℚ) else 0) then 0 else 1

/-- Numerator of `calculate_fraction_of_incorrect_pixels` (evaluation.py lines
272-286): masked error count over shape `(T, N, C, 16, 16)`, the `(T, N)` mask
broadcast over the trailing axes after `unsqueeze`/`repeat(1, 1, 1, 16, 16)`. -/
def incorrectPixelSum (T N C : ℕ) (image recon : ℕ → ℕ → ℕ → ℕ → ℕ → ℚ)
    (mask : ℕ → ℕ → ℚ) : ℚ :=
  ∑ t ∈ Finset.range T, ∑ b ∈ Finset.range N, ∑ c ∈ Finset.range C,
    ∑ i ∈ Finset.range 16, ∑ j ∈ Finset.range 16,
      pixelIncorrect (image t b c i j) (recon t b c i j) * (1 - mask t b)

/-- Denominator of `calculate_fraction_of_incorrect_pixels`:
`(1.0 - observation_mask).sum()` over the mask reshaped to `(T, N, 1, 16, 16)`. -/
def maskedPixelCount (T N : ℕ) (mask : ℕ → ℕ → ℚ) : ℚ :=
  ∑ t ∈ Finset.range T, ∑ b ∈ Finset.range N,
    ∑ _i ∈ Finset.range 16, ∑ _j ∈ Finset.range 16, (1 - mask t b)

/-- Source `calculate_fraction_of_incorrect_pixels`: the quotient
`incorrect.sum() / (1.0 - observation_mask).sum()` is formed directly, with no
guard on the denominator. -/
def calculateFractionOfIncorrectPixels (T N C : ℕ)
    (image recon : ℕ → ℕ → ℕ → ℕ → ℕ → ℚ) (mask : ℕ → ℕ → ℚ) : ℚ :=
  incorrectPixelSum T N C image recon mask / maskedPixelCount T N mask

/-- Dropout-probability sweep of `evaluate_random_masking` (evaluation.py line
101); its first entry is `0.0`. -/
def dropoutProbabilities : List ℚ :=
  [0, 1/10, 2/10, 3/10, 4/10, 5/10, 6/10, 7/10, 8/10, 9/10, 1]

/-- Model of torch's process-global random generator, threaded explicitly: a
stream of noise draws `seed` and the current position `pos`. -/
structure Rng where
  seed : ℕ → ℚ
  pos : ℕ
deriving Inhabited

/-- Draw a `(T, N)`-shaped block of noise (row-major, matching a flattened torch
tensor of `T * N` elements) and advance the generator. -/
def drawTN (g : Rng) (T N : ℕ) : (ℕ → ℕ → ℚ) × Rng :=
  (fun t b => g.seed (g.pos + t * N + b), ⟨g.seed, g.pos + T * N⟩)

/-- Draw one batch row of noise (`N` elements) and advance the generator. -/
def drawRow (g : Rng) (N : ℕ) : Vec × Rng :=
  (fun b => g.seed (g.pos + b), ⟨g.seed, g.pos + N⟩)

/-- External library and network primitives, supplied explicitly: the
encoder/decoder networks of `variationa_autoencoder.py` (out of scope per the
spec, only their interfaces matter) and torch's distribution operations.
`encMean`/`encScale` give the encoder Gaussian's parameters for an image;
`encLP m s a` is the encoder distribution's log-density at `a`; `decLP a x` the
decoder log-density of image `x` given feature `a`; `klStd m s` the KL
divergence of `N(m, s)` from the standard normal prior; `lp x m v` the
log-density of `N(m, v)` at `x`; `chol v` the Cholesky scale applied to a
standard-normal draw when reparameterized-sampling with variance `v`. -/
structure Externs where
  encMean : ℚ → ℚ
  encScale : ℚ → ℚ
  encLP : ℚ → ℚ → ℚ → ℚ
  decLP : ℚ → ℚ → ℚ
  decMean : ℚ → ℚ
  decSample : ℚ → ℚ → ℚ
  klStd : ℚ → ℚ → ℚ
  lp : ℚ → ℚ → ℚ → ℚ
  chol : ℚ → ℚ
deriving Inhabited

/-- Modelled from the spec (§6): `sample_control.SampleControl`, an enum-like
control selecting "sample" or "mean" mode for the encoder and the decoder; kept
as strings because `kalman_vae.py` compares the fields against string literals
and must reject unknown modes. -/
structure SampleControl where
  encoder : String
  decoder : String
deriving DecidableEq

/-- Modelled from the spec (§2-§4): `state_space_model.StateSpaceModel`, which
is not among the provided source files. Specialized to `z_dim = a_dim = 1`, so
the `K` base matrices `A_k`, `C_k` and the noise covariances `Q`, `R` are
rationals. `weight` is the mixture-weight model of spec §4.1: a causal map from
the feature history `a[0..t]` of one batch element to the weight of component
`k` (its learned internals are out of scope; only the contract matters). -/
structure SSM where
  K : ℕ
  baseA : ℕ → ℚ
  baseC : ℕ → ℚ
  matQ : ℚ
  matR : ℚ
  initMean : ℚ
  initCov : ℚ
  weight : List ℚ → ℕ → ℚ

/-- Modelled from the spec (§4.2): effective transition matrix
`A[t] = Σ_k w[t,k] · A_k` for the feature history `hist`. -/
def SSM.matA (M : SSM) (hist : List ℚ) : ℚ :=
  ∑ k ∈ Finset.range M.K, M.weight hist k * M.baseA k

/-- Modelled from the spec (§4.2): effective observation matrix
`C[t] = Σ_k w[t,k] · C_k` for the feature history `hist`. -/
def SSM.matC (M : SSM) (hist : List ℚ) : ℚ :=
  ∑ k ∈ Finset.range M.K, M.weight hist k * M.baseC k

/-- Feature history `a[0..t]` of batch element `b`, from a time-major list of
batched features. -/
def histFeats (as : List Vec) (t b : ℕ) : List ℚ :=
  (as.take (t + 1)).map (fun v => v b)

/-- Batched effective transition matrix at step `t` (spec §4.1-§4.2). -/
def SSM.matAat (M : SSM) (as : List Vec) (t : ℕ) : Vec :=
  fun b => M.matA (histFeats as t b)

/-- Batched effective observation matrix at step `t` (spec §4.1-§4.2). -/
def SSM.matCat (M : SSM) (as : List Vec) (t : ℕ) : Vec :=
  fun b => M.matC (histFeats as t b)

/-- Covariance symmetrization `(S + Sᵀ)/2` of the spec (§3); for a 1×1
covariance the transpose is the identity, so this is an identity map, kept to
mirror the `symmetrize_covariance` flag. -/
def symQ (flag : Bool) (x : ℚ) : ℚ := if flag then (x + x) / 2 else x

/-- Entry `t` of a time-major list of batched values (zero outside range). -/
def vidx (l : List Vec) (t : ℕ) : Vec := l.getD t (fun _ => 0)

/-- Observation-mask lookup: a missing mask means fully observed (spec §6). -/
def maskAt (mask : Option (List Vec)) (t b : ℕ) : ℚ :=
  match mask with
  | none => 1
  | some m => vidx m t b

/-- Modelled from the spec (§4.3 steps 2-4): the innovation update at one
timestep, skipped where the mask is not 1 (filtered equals predicted there).
Given observation row `a`, mask row `m`, observation matrix `C` and the
predicted mean/covariance, returns the filtered mean/covariance. -/
def SSM.filtUpdate (M : SSM) (sym : Bool) (a m C mp Sp : Vec) : Vec × Vec :=
  (fun b =>
     if m b = 1 then
       let S := C b * Sp b * C b + M.matR
       let Kg := Sp b * C b / S
       mp b + Kg * (a b - C b * mp b)
     else mp b,
   fun b =>
     if m b = 1 then
       let S := C b * Sp b * C b + M.matR
       let Kg := Sp b * C b / S
       symQ sym ((1 - Kg * C b) * Sp b)
     else Sp b)

/-- Modelled from the spec (§4.3): predicted state `(μ_pred[t], Σ_pred[t])` of
the filter recursion; `t = 0` is the fixed initial prior, and step 5 advances
through the dynamics after the innovation update of the previous step. -/
def SSM.predState (M : SSM) (sym : Bool) (as : List Vec)
    (mask : Option (List Vec)) : ℕ → Vec × Vec
  | 0 => (fun _ => M.initMean, fun _ => M.initCov)
  | t + 1 =>
    let p := M.predState sym as mask t
    let A := M.matAat as t
    let f := M.filtUpdate sym (vidx as t) (fun b => maskAt mask t b)
        (M.matCat as t) p.1 p.2
    (fun b => A b * f.1 b, fun b => symQ sym (A b * A b * f.2 b + M.matQ))

/-- Modelled from the spec (§4.3): filtered state `(μ_filt[t], Σ_filt[t])`. -/
def SSM.filtState (M : SSM) (sym : Bool) (as : List Vec)
    (mask : Option (List Vec)) (t : ℕ) : Vec × Vec :=
  let p := M.predState sym as mask t
  M.filtUpdate sym (vidx as t) (fun b => maskAt mask t b) (M.matCat as t) p.1 p.2

/-- Outputs of `StateSpaceModel.kalman_filter` as unpacked at its call sites in
`kalman_vae.py` (lines 125-140 and 272-285): filtered means/covariances,
one-step-ahead predicted means/covariances (the `filter_next_*` values), the
per-step matrices, and the filter-reconstructed features `a_filt`. -/
structure FilterOut where
  filterMeans : List Vec
  filterCovariances : List Vec
  filterNextMeans : List Vec
  filterNextCovariances : List Vec
  matAs : List Vec
  matCs : List Vec
  filterAs : List Vec
deriving Inhabited

/-- Modelled from the spec (§4.3): `kalman_filter`. The `sample_control`,
`learn_weight_model` and `burn_in` arguments are accepted as at the call sites;
the spec assigns them no effect on the returned values (burn-in steps still
participate in the recursion, and the learn flag only gates gradient flow), so
they are not consumed. The matrix lists carry `T + 1` entries — one per step
plus the next-step prediction — matching the `mat_Cs[:-1]` slice in `elbo`. -/
def SSM.kalmanFilter (M : SSM) (as : List Vec) (_sc : SampleControl)
    (mask : Option (List Vec)) (_learnWeightModel : Bool) (sym : Bool)
    (_burnIn : ℕ) : FilterOut :=
  let T := as.length
  { filterMeans := (List.range T).map fun t => (M.filtState sym as mask t).1
    filterCovariances := (List.range T).map fun t => (M.filtState sym as mask t).2
    filterNextMeans := (List.range T).map fun t => (M.predState sym as mask (t + 1)).1
    filterNextCovariances := (List.range T).map fun t => (M.predState sym as mask (t + 1)).2
    matAs := (List.range (T + 1)).map fun t => M.matAat as t
    matCs := (List.range (T + 1)).map fun t => M.matCat as t
    filterAs := (List.range T).map fun t => fun b =>
      M.matCat as t b * (M.filtState sym as mask t).1 b }

/-- Modelled from the spec (§4.4): smoothed state at `t = lastT - j` by the
backward RTS recursion over the filter outputs (`lastT = T - 1`); `j = 0` is
the terminal condition `μ_smooth[T-1] = μ_filt[T-1]`. -/
def SSM.smoothState (_M : SSM) (sym : Bool) (fm fc nm nc mA : List Vec)
    (lastT : ℕ) : ℕ → Vec × Vec
  | 0 => (vidx fm lastT, vidx fc lastT)
  | j + 1 =>
    let t := lastT - (j + 1)
    let nxt := SSM.smoothState _M sym fm fc nm nc mA lastT j
    let J : Vec := fun b => vidx fc t b * vidx mA t b / vidx nc t b
    (fun b => vidx fm t b + J b * (nxt.1 b - vidx nm t b),
     fun b => symQ sym (vidx fc t b + J b * J b * (nxt.2 b - vidx nc t b)))

/-- Modelled from the spec (§4.4): stochastic backward (ancestral) sampling.
After `j + 1` draws the returned list is `[z_{lastT-j}, …, z_{lastT}]`; each
step consumes one batch row of noise from the generator, strictly backward in
time, and each non-terminal draw is centred on the sampled successor. -/
def SSM.backSample (_M : SSM) (E : Externs) (sym : Bool)
    (fc nm nc mA sm sv : List Vec) (N lastT : ℕ) (g : Rng) :
    ℕ → List Vec × Rng
  | 0 =>
    let d := drawRow g N
    let z : Vec := fun b => vidx sm lastT b + E.chol (vidx sv lastT b) * d.1 b
    ([z], d.2)
  | j + 1 =>
    let prev := SSM.backSample _M E sym fc nm nc mA sm sv N lastT g j
    let t := lastT - (j + 1)
    let zn := prev.1.headD (fun _ => 0)
    let J : Vec := fun b => vidx fc t b * vidx mA t b / vidx nc t b
    let d := drawRow prev.2 N
    let z : Vec := fun b =>
      vidx sm t b + J b * (zn b - vidx nm t b)
        + E.chol (symQ sym ((1 - J b * vidx mA t b) * vidx fc t b)) * d.1 b
    (z :: prev.1, d.2)

/-- Outputs of `StateSpaceModel.kalman_smooth` as unpacked at its call sites
(lines 141-152 and 286-296): smoothed means/covariances, the backward-sampled
latent trajectory `zs`, the features `as_resampled[t] = C[t]·z_sample[t]`, and
the advanced generator state. -/
structure SmoothOut where
  means : List Vec
  covariances : List Vec
  zs : List Vec
  asResampled : List Vec
  gOut : Rng
deriving Inhabited

/-- Modelled from the spec (§4.4): `kalman_smooth`. The signature mirrors the
call sites: it consumes the filter outputs and the per-step matrices as passed
arguments (it runs no weight model of its own); `as`, `sample_control` and
`burn_in` are accepted but the spec gives them no effect on the returned
values. -/
def SSM.kalmanSmooth (M : SSM) (E : Externs) (_as : List Vec)
    (fm fc nm nc mA mC : List Vec) (_sc : SampleControl) (sym : Bool)
    (_burnIn : ℕ) (N : ℕ) (g : Rng) : SmoothOut :=
  let T := fm.length
  let lastT := T - 1
  let sm := (List.range T).map fun t =>
    (SSM.smoothState M sym fm fc nm nc mA lastT (lastT - t)).1
  let sv := (List.range T).map fun t =>
    (SSM.smoothState M sym fm fc nm nc mA lastT (lastT - t)).2
  let zg := SSM.backSample M E sym fc nm nc mA sm sv N lastT g lastT
  { means := sm
    covariances := sv
    zs := zg.1
    asResampled := (List.range T).map fun t => fun b => vidx mC t b * vidx zg.1 t b
    gOut := zg.2 }

/-- Modelled from the spec (§4.6): `state_transition_log_likelihood`: the sum
over `t` of `log N(z_sample[t+1]; A[t]·z_sample[t], Q)`, summed over time and
averaged over the batch. -/
def SSM.stateTransitionLogLikelihood (M : SSM) (E : Externs) (T N : ℕ)
    (zs mA : List Vec) : ℚ :=
  sumTimeMeanBatch (T - 1) N fun t b =>
    E.lp (vidx zs (t + 1) b) (vidx mA t b * vidx zs t b) M.matQ

/-- New trajectory segments produced by the future rollout, oldest first. -/
structure RollOut where
  asNew : List Vec
  meansNew : List Vec
  covariancesNew : List Vec
  matAsNew : List Vec
  matCsNew : List Vec
deriving Inhabited

/-- Modelled from the spec (§4.5): the pure-dynamics rollout for the requested
number of future steps. Each step evaluates the weight model causally on the
feature history extended so far, advances the mean/covariance through the
dynamics with no observation update (the masked-step branch of §4.3), and emits
the feature `a = C·μ` (mean propagation; the spec fixes no sampling scheme for
the latent rollout). -/
def SSM.rollout (M : SSM) (sym : Bool) (asAll : List Vec) (mu Sg : Vec) :
    ℕ → RollOut
  | 0 => ⟨[], [], [], [], []⟩
  | n + 1 =>
    let A : Vec := fun b => M.matA (asAll.map fun v => v b)
    let C : Vec := fun b => M.matC (asAll.map fun v => v b)
    let mu2 : Vec := fun b => A b * mu b
    let Sg2 : Vec := fun b => symQ sym (A b * A b * Sg b + M.matQ)
    let a2 : Vec := fun b => C b * mu2 b
    let rest := M.rollout sym (asAll ++ [a2]) mu2 Sg2 n
    ⟨a2 :: rest.asNew, mu2 :: rest.meansNew, Sg2 :: rest.covariancesNew,
     A :: rest.matAsNew, C :: rest.matCsNew⟩

/-- Extended trajectories returned by `StateSpaceModel.predict_future` as
unpacked at its call site (lines 298-316). -/
structure PredictSSMOut where
  asExt : List Vec
  meansExt : List Vec
  covariancesExt : List Vec
  filterNextMeansExt : List Vec
  filterNextCovariancesExt : List Vec
  matAsExt : List Vec
  matCsExt : List Vec
deriving Inhabited

/-- Modelled from the spec (§4.5): `StateSpaceModel.predict_future`. Starts the
rollout from the filter's last one-step-ahead prediction and returns the
historical trajectories with the new steps appended, so downstream decoding
treats history and forecast uniformly. -/
def SSM.predictFuture (M : SSM) (sym : Bool)
    (as means covs nm nc mA mC : List Vec) (numSteps : ℕ)
    (_sc : SampleControl) : PredictSSMOut :=
  let mu0 := vidx nm (nm.length - 1)
  let Sg0 := vidx nc (nc.length - 1)
  let r := M.rollout sym as mu0 Sg0 numSteps
  { asExt := as ++ r.asNew
    meansExt := means ++ r.meansNew
    covariancesExt := covs ++ r.covariancesNew
    filterNextMeansExt := nm ++ r.meansNew
    filterNextCovariancesExt := nc ++ r.covariancesNew
    matAsExt := mA ++ r.matAsNew
    matCsExt := mC ++ r.matCsNew }

/-- Execution stages of the state-space recursions, recorded in order so the
fail-fast properties can speak about which recursions have run by the time a
call returns. -/
inductive Stage where
  | filter
  | smooth
  | predict
deriving DecidableEq

/-- Latent trajectory `zs_sample` drawn in `elbo` (lines 157-176): an
independent per-step reparameterized draw from the smoothed marginals
`N(μ_smooth[t], Σ_smooth[t])` using the noise block `eps`. -/
def marginalResample (E : Externs) (T : ℕ) (means covs : List Vec)
    (eps : ℕ → ℕ → ℚ) : List Vec :=
  (List.range T).map fun t => fun b =>
    vidx means t b + E.chol (vidx covs t b) * eps t b

/-- Observation log-likelihood term of `elbo` (lines 179-188) as a function of
the latent trajectory `z` it is evaluated at: the log-density of
`N(C[t]·z[t], R)` at the encoded features, with the `mat_Cs[:-1]` slice,
summed over time and averaged over the batch. -/
def kalmanObservationLLAt (E : Externs) (M : SSM) (T N : ℕ)
    (asFeat matCs : List Vec) (z : List Vec) : ℚ :=
  sumTimeMeanBatch T N fun t b =>
    E.lp (vidx asFeat t b) (vidx matCs.dropLast t b * vidx z t b) M.matR

/-- Posterior (smoother-density) log-likelihood term of `elbo` (lines 195-202)
as a function of the latent trajectory `z`: the log-density of the per-step
smoothed marginals at `z[t]`, summed over time and averaged over the batch. -/
def kalmanPosteriorLLAt (E : Externs) (T N : ℕ) (means covs z : List Vec) : ℚ :=
  sumTimeMeanBatch T N fun t b =>
    E.lp (vidx z t b) (vidx means t b) (vidx covs t b)

/-- KL regularization term of `elbo` (lines 161-169) when enabled:
`−KL(q_φ(a|x) ‖ N(0, 1))` summed over the flattened time-batch axis (the
source applies `.sum(0).mean(0).sum(0)` to a `(T·N, a_dim)` tensor). -/
def klTermOf (E : Externs) (T N : ℕ) (xs : List Vec) : ℚ :=
  -(∑ t ∈ Finset.range T, ∑ b ∈ Finset.range N,
      E.klStd (E.encMean (vidx xs t b)) (E.encScale (vidx xs t b)))

/-- Intermediate values of one successful `elbo` call: the local variables of
`KalmanVariationalAutoencoder.elbo` (lines 93-246). -/
structure ElboLocals where
  asFeat : List Vec
  reconstructionObj : ℚ
  regularizationObj : ℚ
  F : FilterOut
  S : SmoothOut
  klReg : ℚ
  zsSample : List Vec
  kalmanObservationLogLikelihood : ℚ
  kalmanStateTransitionLogLikelihood : ℚ
  kalmanPosteriorLogLikelihood : ℚ
  objective : ℚ
  gOut : Rng
deriving Inhabited

/-- Body of `elbo` after the encoder branch (lines 112-246): reconstruction and
regularization objectives, Kalman filter and smoother, marginal latent
resampling with fresh noise, the three Kalman log-likelihood terms, and the
weighted training objective. -/
def KVAE.elboCore (E : Externs) (M : SSM) (sc : SampleControl) (xs : List Vec)
    (N : ℕ) (mask : Option (List Vec)) (reconstWeight regularizationWeight
    kalmanWeight klWeight : ℚ) (learnWeightModel sym : Bool) (burnIn : ℕ)
    (asFeat : List Vec) (g : Rng) : ElboLocals :=
  let T := xs.length
  let reconstruction := sumTimeMeanBatch T N fun t b =>
    E.decLP (vidx asFeat t b) (vidx xs t b)
  let regularization := -(sumTimeMeanBatch T N fun t b =>
    E.encLP (E.encMean (vidx xs t b)) (E.encScale (vidx xs t b))
      (vidx asFeat t b))
  let F := M.kalmanFilter asFeat sc mask learnWeightModel sym burnIn
  let S := M.kalmanSmooth E asFeat F.filterMeans F.filterCovariances
    F.filterNextMeans F.filterNextCovariances F.matAs F.matCs sc sym burnIn N g
  let klReg := if klWeight ≠ 0 then klTermOf E T N xs else 0
  let zg := drawTN S.gOut T N
  let zsSample := marginalResample E T S.means S.covariances zg.1
  let obsLL := kalmanObservationLLAt E M T N asFeat F.matCs zsSample
  let transLL := M.stateTransitionLogLikelihood E T N zsSample F.matAs
  let postLL := kalmanPosteriorLLAt E T N S.means S.covariances zsSample
  { asFeat := asFeat
    reconstructionObj := reconstruction
    regularizationObj := regularization
    F := F
    S := S
    klReg := klReg
    zsSample := zsSample
    kalmanObservationLogLikelihood := obsLL
    kalmanStateTransitionLogLikelihood := transLL
    kalmanPosteriorLogLikelihood := postLL
    objective := reconstWeight * reconstruction
      + regularizationWeight * regularization + klWeight * klReg
      + kalmanWeight * (obsLL + transLL - postLL)
    gOut := zg.2 }

/-- Source `KalmanVariationalAutoencoder.elbo` (lines 80-246): the encoder
branch on `sample_control.encoder` — reparameterized sampling, or the mean with
a training-state check, or a `ValueError` for unknown modes — followed by the
body. Returns the recursion stages that ran together with the result;
randomness comes from the threaded global generator `g`. -/
def KVAE.elbo (E : Externs) (M : SSM) (training : Bool) (xs : List Vec)
    (N : ℕ) (sc : SampleControl) (mask : Option (List Vec))
    (reconstWeight regularizationWeight kalmanWeight klWeight : ℚ)
    (learnWeightModel sym : Bool) (burnIn : ℕ) (g : Rng) :
    List Stage × Except String ElboLocals :=
  let T := xs.length
  if sc.encoder = "sample" then
    let eg := drawTN g T N
    let asFeat : List Vec := (List.range T).map fun t => fun b =>
      E.encMean (vidx xs t b) + E.encScale (vidx xs t b) * eg.1 t b
    ([Stage.filter, Stage.smooth],
     .ok (KVAE.elboCore E M sc xs N mask reconstWeight regularizationWeight
       kalmanWeight klWeight learnWeightModel sym burnIn asFeat eg.2))
  else if sc.encoder = "mean" then
    if training then
      ([], .error ("Invalid sample control for encoder: " ++ sc.encoder))
    else
      let asFeat : List Vec := (List.range T).map fun t => fun b =>
        E.encMean (vidx xs t b)
      ([Stage.filter, Stage.smooth],
       .ok (KVAE.elboCore E M sc xs N mask reconstWeight regularizationWeight
         kalmanWeight klWeight learnWeightModel sym burnIn asFeat g))
  else
    ([], .error ("Invalid sample control for encoder: " ++ sc.encoder))

/-- Keys of the info dictionary returned by `elbo` (lines 216-246), verbatim
and in source order. -/
def elboInfoKeys : List String :=
  ["reconst_weight", "regularization_weight", "kalman_weight", "kl_weight",
   "reconstruction", "regularization", "kl",
   "kalman_observation_log_likelihood",
   "kalman_state_transition_log_likelihood",
   "kalman_posterior_log_likelihood", "observation_mask",
   "filter_means", "filter_covariances", "filter_next_means",
   "filter_next_covariances", "mat_As", "mat_Cs", "means", "covariances",
   "as", "zs", "filter_as", "as_resampled"]

/-- Info-dictionary keys read by `write_trajectory_video` from the bundle that
`elbo` returns (evaluation.py lines 306-419). -/
def trajectoryVideoKeysRead : List String :=
  ["filter_as", "as_resampled", "as", "weights"]

/-- Intermediate values of one successful `predict_future` call (the local
variables of `KalmanVariationalAutoencoder.predict_future`, lines 256-344). -/
structure PredictLocals where
  asFeat : List Vec
  F : FilterOut
  S : SmoothOut
  P : PredictSSMOut
  xsOut : ℕ → ℕ → ℚ
  gOut : Rng
deriving Inhabited

/-- Body of `predict_future` after the encoder branch (lines 271-344): filter,
smoother, future rollout, then the decoder branch — the decoder-mode check
happens only here, after the three recursions have already run. -/
def KVAE.predictFutureCore (E : Externs) (M : SSM) (xs : List Vec) (N : ℕ)
    (numSteps : ℕ) (sc : SampleControl) (sym : Bool) (asFeat : List Vec)
    (g : Rng) : List Stage × Except String PredictLocals :=
  let T := xs.length
  let F := M.kalmanFilter asFeat sc none false sym 0
  let S := M.kalmanSmooth E asFeat F.filterMeans F.filterCovariances
    F.filterNextMeans F.filterNextCovariances F.matAs F.matCs sc sym 0 N g
  let P := M.predictFuture sym asFeat S.means S.covariances F.filterNextMeans
    F.filterNextCovariances F.matAs F.matCs numSteps sc
  if sc.decoder = "sample" then
    let dg := drawTN S.gOut (T + numSteps) N
    ([Stage.filter, Stage.smooth, Stage.predict],
     .ok { asFeat := asFeat, F := F, S := S, P := P,
           xsOut := fun t b => E.decSample (vidx P.asExt t b) (dg.1 t b),
           gOut := dg.2 })
  else if sc.decoder = "mean" then
    ([Stage.filter, Stage.smooth, Stage.predict],
     .ok { asFeat := asFeat, F := F, S := S, P := P,
           xsOut := fun t b => E.decMean (vidx P.asExt t b), gOut := S.gOut })
  else
    ([Stage.filter, Stage.smooth, Stage.predict],
     .error ("Invalid sample control for decoder: " ++ sc.decoder))

/-- Source `KalmanVariationalAutoencoder.predict_future` (lines 248-344): the
encoder branch — note the "mean" arm (lines 264-265) performs no training-state
check, unlike `elbo` — followed by the body. The `training` flag is accepted
(it models `self.training`) but, faithfully to the source, never consulted. -/
def KVAE.predictFuture (E : Externs) (M : SSM) (_training : Bool)
    (xs : List Vec) (N : ℕ) (numSteps : ℕ) (sc : SampleControl) (sym : Bool)
    (g : Rng) : List Stage × Except String PredictLocals :=
  let T := xs.length
  if sc.encoder = "sample" then
    let eg := drawTN g T N
    KVAE.predictFutureCore E M xs N numSteps sc sym
      ((List.range T).map fun t => fun b =>
        E.encMean (vidx xs t b) + E.encScale (vidx xs t b) * eg.1 t b) eg.2
  else if sc.encoder = "mean" then
    KVAE.predictFutureCore E M xs N numSteps sc sym
      ((List.range T).map fun t => fun b => E.encMean (vidx xs t b)) g
  else
    ([], .error ("Invalid sample control for encoder: " ++ sc.encoder))

/-- Locals of a successful `elbo` run (default value on error). -/
def okLocals (r : List Stage × Except String ElboLocals) : ElboLocals :=
  match r.2 with
  | .ok l => l
  | .error _ => default

/-- Locals of a successful `predict_future` run (default value on error). -/
def okPredict (r : List Stage × Except String PredictLocals) : PredictLocals :=
  match r.2 with
  | .ok l => l
  | .error _ => default

/-- Concrete externals used by the closed witness and counterexample theorems:
each primitive is a simple rational function. -/
def Ec : Externs where
  encMean := fun x => x
  encScale := fun _ => 1
  encLP := fun _ _ a => a
  decLP := fun a x => a * x
  decMean := fun a => a
  decSample := fun a e => a + e
  klStd := fun m s => m + s
  lp := fun x m _ => x - m
  chol := fun _ => 1

/-- Concrete single-component state-space model for the closed theorems. -/
def Mc : SSM where
  K := 1
  baseA := fun _ => 1
  baseC := fun _ => 1
  matQ := 1
  matR := 1
  initMean := 0
  initCov := 1
  weight := fun _ _ => 1

/-- Concrete one-step input sequence for the closed theorems. -/
def xsC : List Vec := [fun _ => 1]

/-- Concrete global-generator state: the stream of naturals, at position 0. -/
def gC : Rng := ⟨fun n => (n : ℚ), 0⟩

/-- A different concrete global-generator state (shifted stream). -/
def gC2 : Rng := ⟨fun n => (n : ℚ) + 1, 0⟩

/-- Helper: repeatedly setting entries `s + i`, `i < L`, of a list to zero
keeps its length. -/
theorem foldlSetZero_length (L : ℕ) (s : ℕ) (init : List ℚ) :
    ((List.range L).foldl (fun lst i => lst.set (s + i) 0) init).length
      = init.length := by
  induction L with
  | zero => rfl
  | succ L ih =>
    rw [List.range_succ, List.foldl_append, List.foldl_cons, List.foldl_nil,
      List.length_set, ih]

/-- Helper: entry characterization of the zeroing loop of
`create_continuous_mask`. -/
theorem foldlSetZero_getElem (L : ℕ) (s t : ℕ) (init : List ℚ) :
    ((List.range L).foldl (fun lst i => lst.set (s + i) 0) init)[t]? =
      if s ≤ t ∧ t < s + L ∧ t < init.length then some 0 else init[t]? := by
  induction L with
  | zero =>
    have h : ¬(s ≤ t ∧ t < s + 0 ∧ t < init.length) := by omega
    simp only [List.range_zero, List.foldl_nil, if_neg h]
  | succ L ih =>
    rw [List.range_succ, List.foldl_append, List.foldl_cons, List.foldl_nil,
      List.getElem?_set, foldlSetZero_length, ih]
    by_cases h1 : s + L = t
    · by_cases h2 : t < init.length
      · have h3 : s ≤ t ∧ t < s + (L + 1) ∧ t < init.length := by omega
        simp [h1, h2, h3]
      · have h3 : ¬(s ≤ t ∧ t < s + (L + 1) ∧ t < init.length) := by omega
        have h4 : init[t]? = none :=
          List.getElem?_eq_none (by omega : init.length ≤ t)
        simp [h1, h2, h3, h4]
    · have h4 : (s ≤ t ∧ t < s + (L + 1) ∧ t < init.length)
          ↔ (s ≤ t ∧ t < s + L ∧ t < init.length) := by omega
      simp only [if_neg h1, h4]

/-- Helper: closed form of `create_continuous_mask` inside the time range. -/
theorem createContinuousMask_eq (T L N t b : ℕ) (hL : L ≤ T) (ht : t < T) :
    createContinuousMask T L N t b =
      if (T - L) / 2 ≤ t ∧ t < (T - L) / 2 + L then 0 else 1 := by
  unfold createContinuousMask createContinuousMaskList
  rw [List.getD_eq_getElem?_getD, foldlSetZero_getElem]
  by_cases h : (T - L) / 2 ≤ t ∧ t < (T - L) / 2 + L
  · have h3 : (T - L) / 2 ≤ t ∧ t < (T - L) / 2 + L
        ∧ t < (List.replicate T (1 : ℚ)).length := by
      simp only [List.length_replicate]
      exact ⟨h.1, h.2, ht⟩
    rw [if_pos h3, if_pos h]
    rfl
  · have h3 : ¬((T - L) / 2 ≤ t ∧ t < (T - L) / 2 + L
        ∧ t < (List.replicate T (1 : ℚ)).length) := by
      simp only [List.length_replicate]
      tauto
    rw [if_neg h3, if_neg h, List.getElem?_replicate, if_pos ht]
    rfl

/-- Helper: each column of `create_continuous_mask` holds exactly `mask_length`
zeros. -/
theorem createContinuousMask_zeros (T L N b : ℕ) (hL : L ≤ T) :
    ((Finset.range T).filter fun t => createContinuousMask T L N t b = 0).card
      = L := by
  have hsL : (T - L) / 2 + L ≤ T := by omega
  have key : ((Finset.range T).filter
        fun t => createContinuousMask T L N t b = 0)
      = Finset.Ico ((T - L) / 2) ((T - L) / 2 + L) := by
    ext t
    simp only [Finset.mem_filter, Finset.mem_range, Finset.mem_Ico]
    constructor
    · rintro ⟨ht, hm⟩
      rw [createContinuousMask_eq T L N t b hL ht] at hm
      by_contra hc
      rw [if_neg hc] at hm
      exact one_ne_zero hm
    · intro hi
      have ht : t < T := by omega
      refine ⟨ht, ?_⟩
      rw [createContinuousMask_eq T L N t b hL ht, if_pos hi]
  rw [key, Nat.card_Ico]
  omega

/-- C10: for `0 ≤ mask_length ≤ seq_length`, `create_continuous_mask` returns a
`(seq_length, batch_size)` mask identical across batch columns, equal to `0`
exactly on the contiguous range `start .. start + mask_length - 1` with
`start = (seq_length - mask_length) / 2` and `1` elsewhere; each column holds
exactly `mask_length` zeros. -/
theorem c10_continuous_mask (T L N : ℕ) (hT : 1 ≤ T) (hL : L ≤ T) :
    (∀ t b, t < T →
      createContinuousMask T L N t b =
        if (T - L) / 2 ≤ t ∧ t < (T - L) / 2 + L then 0 else 1)
    ∧ (∀ t b b2,
        createContinuousMask T L N t b = createContinuousMask T L N t b2)
    ∧ ∀ b, ((Finset.range T).filter
        fun t => createContinuousMask T L N t b = 0).card = L := by
  exact ⟨fun t b ht => createContinuousMask_eq T L N t b hL ht,
    fun _ _ _ => rfl, fun b => createContinuousMask_zeros T L N b hL⟩

/-- C10 witness: the concrete instance `seq_length = 5`, `mask_length = 2`:
`start = 1`, the mask is zero at `t = 1` and one at `t = 0`, and each column
holds exactly two zeros. -/
theorem c10_continuous_mask_witness :
    createContinuousMask 5 2 3 1 0 = 0 ∧ createContinuousMask 5 2 3 0 0 = 1
    ∧ ((Finset.range 5).filter
        fun t => createContinuousMask 5 2 3 t 0 = 0).card = 2 := by
  have h := c10_continuous_mask 5 2 3 (by norm_num) (by norm_num)
  refine ⟨?_, ?_, h.2.2 0⟩
  · have h1 := h.1 1 0 (by norm_num)
    norm_num at h1
    exact h1
  · have h0 := h.1 0 0 (by norm_num)
    norm_num at h0
    exact h0

/-- C9: for `seq_length ≥ 2`, `batch_size ≥ 1` and any `mask_rate` in `[0, 1]`,
`create_random_mask` yields only 0/1 entries, and the first and last timestep
rows are all ones, whatever the random draws are. -/
theorem c9_random_mask_endpoints (r : ℕ → ℕ → ℚ) (T N : ℕ) (rate : ℚ)
    (hT : 2 ≤ T) (hN : 1 ≤ N) (h0 : 0 ≤ rate) (h1 : rate ≤ 1) :
    ∀ t b, t < T → b < N →
      (createRandomMask r T N rate t b = 0 ∨ createRandomMask r T N rate t b = 1)
      ∧ ((t = 0 ∨ t = T - 1) → createRandomMask r T N rate t b = 1) := by
  intro t b _ _
  constructor
  · unfold createRandomMask
    split
    · right; rfl
    · split
      · right; rfl
      · left; rfl
  · intro h
    unfold createRandomMask
    rw [if_pos h]

/-- C9 witness: the concrete instance `T = 3`, `N = 2`, `mask_rate = 1/2`,
uniform draws `1/2`. -/
theorem c9_random_mask_endpoints_witness :
    createRandomMask (fun _ _ => 1/2) 3 2 (1/2) 0 0 = 1
    ∧ (createRandomMask (fun _ _ => 1/2) 3 2 (1/2) 1 1 = 0
       ∨ createRandomMask (fun _ _ => 1/2) 3 2 (1/2) 1 1 = 1) := by
  have h := c9_random_mask_endpoints (fun _ _ => 1/2) 3 2 (1/2)
    (by norm_num) (by norm_num) (by norm_num) (by norm_num)
  exact ⟨(h 0 0 (by norm_num) (by norm_num)).2 (Or.inl rfl),
    (h 1 1 (by norm_num) (by norm_num)).1⟩

/-- C8: `calculate_fraction_of_incorrect_pixels` divides by the count of masked
entries with no zero guard; an all-ones observation mask makes that denominator
zero, and the sweep of `evaluate_random_masking` reaches this: its first dropout
probability is `0.0`, for which `create_random_mask` returns an all-ones mask
(since `torch.rand` values lie in `[0, 1)`). -/
theorem c8_zero_denominator_reachable (r : ℕ → ℕ → ℚ) (T N C : ℕ)
    (image recon : ℕ → ℕ → ℕ → ℕ → ℕ → ℚ)
    (hr : ∀ t b, 0 ≤ r t b ∧ r t b < 1) :
    dropoutProbabilities.headI = 0
    ∧ (∀ t b, createRandomMask r T N dropoutProbabilities.headI t b = 1)
    ∧ (∀ m : ℕ → ℕ → ℚ, (∀ t b, m t b = 1) → maskedPixelCount T N m = 0)
    ∧ calculateFractionOfIncorrectPixels T N C image recon
        (createRandomMask r T N dropoutProbabilities.headI)
      = incorrectPixelSum T N C image recon
          (createRandomMask r T N dropoutProbabilities.headI) / 0 := by
  have h0 : dropoutProbabilities.headI = 0 := rfl
  have hmask : ∀ t b, createRandomMask r T N dropoutProbabilities.headI t b = 1 := by
    intro t b
    unfold createRandomMask
    rw [h0]
    split
    · rfl
    · rw [if_pos (hr t b).1]
  have hcount : ∀ m : ℕ → ℕ → ℚ, (∀ t b, m t b = 1) →
      maskedPixelCount T N m = 0 := by
    intro m hm
    unfold maskedPixelCount
    simp [hm]
  refine ⟨h0, hmask, hcount, ?_⟩
  unfold calculateFractionOfIncorrectPixels
  rw [hcount _ hmask]

/-- C8 witness: the concrete instance `T = 2`, `N = 1`, uniform draws `1/2`:
the first swept dropout probability is zero and the resulting mask has a zero
masked-pixel denominator. -/
theorem c8_zero_denominator_reachable_witness :
    dropoutProbabilities.headI = 0
    ∧ maskedPixelCount 2 1
        (createRandomMask (fun _ _ => 1/2) 2 1 dropoutProbabilities.headI) = 0 := by
  have h := c8_zero_denominator_reachable (fun _ _ => 1/2) 2 1 1
    (fun _ _ _ _ _ => 0) (fun _ _ _ _ _ => 0)
    (by intro t b; norm_num)
  exact ⟨h.1, h.2.2.1 _ h.2.1⟩

/-- C7: the info bundle returned by `elbo` carries the filter, prediction and
smoothing outputs, the per-step matrices, the sampled latent trajectory, the
resampled features and the three log-likelihood scalars, but it has no
`"weights"` key — while `write_trajectory_video` reads `info["weights"]`. -/
theorem c7_weights_key_missing :
    "weights" ∈ trajectoryVideoKeysRead
    ∧ "weights" ∉ elboInfoKeys
    ∧ "filter_means" ∈ elboInfoKeys ∧ "filter_covariances" ∈ elboInfoKeys
    ∧ "filter_next_means" ∈ elboInfoKeys
    ∧ "filter_next_covariances" ∈ elboInfoKeys
    ∧ "means" ∈ elboInfoKeys ∧ "covariances" ∈ elboInfoKeys
    ∧ "mat_As" ∈ elboInfoKeys ∧ "mat_Cs" ∈ elboInfoKeys
    ∧ "zs" ∈ elboInfoKeys ∧ "as" ∈ elboInfoKeys
    ∧ "filter_as" ∈ elboInfoKeys ∧ "as_resampled" ∈ elboInfoKeys
    ∧ "kalman_observation_log_likelihood" ∈ elboInfoKeys
    ∧ "kalman_state_transition_log_likelihood" ∈ elboInfoKeys
    ∧ "kalman_posterior_log_likelihood" ∈ elboInfoKeys := by
  decide

/-- C4 (amended): `elbo` rejects encoder mean mode while training, before any
recursion (empty stage trace), but `predict_future` performs no training-state
check: encoder mean mode succeeds there even while training. -/
theorem c4_mean_mode_training (E : Externs) (M : SSM) (xs : List Vec)
    (N ns : ℕ) (sc : SampleControl) (mask : Option (List Vec))
    (w1 w2 w3 w4 : ℚ) (lw sym : Bool) (bi : ℕ) (g : Rng)
    (henc : sc.encoder = "mean") :
    KVAE.elbo E M true xs N sc mask w1 w2 w3 w4 lw sym bi g
      = ([], .error ("Invalid sample control for encoder: " ++ sc.encoder))
    ∧ (sc.decoder = "mean" →
       (KVAE.predictFuture E M true xs N ns sc sym g).2.isOk = true) := by
  constructor
  · simp [KVAE.elbo, henc]
  · intro hdec
    simp only [KVAE.predictFuture, KVAE.predictFutureCore, henc]
    simp only [if_neg (by decide : ¬("mean" : String) = "sample"), if_pos rfl, hdec]
    rfl

/-- C4 counterexample: requesting mean mode from `predict_future` while the
model is in training state raises no error — the call succeeds, contradicting
the claim that mean mode errors during training for every public operation. -/
theorem c4_counterexample :
    (KVAE.predictFuture Ec Mc true xsC 1 0 ⟨"mean", "mean"⟩ true gC).2.isOk
      = true := by
  rfl

/-- C4 witness: the `elbo` half at a concrete input. -/
theorem c4_mean_mode_training_witness :
    KVAE.elbo Ec Mc true xsC 1 ⟨"mean", "mean"⟩ none 1 1 1 1 false true 0 gC
      = ([], .error ("Invalid sample control for encoder: " ++ "mean")) := by
  exact (c4_mean_mode_training Ec Mc xsC 1 0 ⟨"mean", "mean"⟩ none 1 1 1 1
    false true 0 gC rfl).1

/-- C5 (amended): an unknown encoder mode makes both operations fail before any
recursion (empty stage trace); but an unknown decoder mode raises no error at
all in `elbo` (which never consults the decoder mode), and in `predict_future`
it raises only after the filter, smoother and predictor recursions have run. -/
theorem c5_invalid_mode_placement (E : Externs) (M : SSM) (tr : Bool)
    (xs : List Vec) (N ns : ℕ) (sc : SampleControl) (mask : Option (List Vec))
    (w1 w2 w3 w4 : ℚ) (lw sym : Bool) (bi : ℕ) (g : Rng) :
    (sc.encoder ≠ "sample" → sc.encoder ≠ "mean" →
      KVAE.elbo E M tr xs N sc mask w1 w2 w3 w4 lw sym bi g
        = ([], .error ("Invalid sample control for encoder: " ++ sc.encoder))
      ∧ KVAE.predictFuture E M tr xs N ns sc sym g
        = ([], .error ("Invalid sample control for encoder: " ++ sc.encoder)))
    ∧ (sc.encoder = "sample" → sc.decoder ≠ "sample" → sc.decoder ≠ "mean" →
      (KVAE.elbo E M tr xs N sc mask w1 w2 w3 w4 lw sym bi g).2.isOk = true
      ∧ KVAE.predictFuture E M tr xs N ns sc sym g
        = ([Stage.filter, Stage.smooth, Stage.predict],
           .error ("Invalid sample control for decoder: " ++ sc.decoder))) := by
  constructor
  · intro h1 h2
    constructor
    · simp [KVAE.elbo, h1, h2]
    · simp [KVAE.predictFuture, h1, h2]
  · intro h1 h2 h3
    constructor
    · simp only [KVAE.elbo, h1, if_pos rfl]
      rfl
    · simp [KVAE.predictFuture, KVAE.predictFutureCore, h1, h2, h3]

/-- C5 counterexample: with an unknown decoder mode, `predict_future` does
raise — but only after the filter, smoother and predictor recursions have all
executed (non-empty stage trace), contradicting the claim that the error always
precedes any recursion. -/
theorem c5_counterexample :
    (KVAE.predictFuture Ec Mc false xsC 1 0 ⟨"sample", "bogus"⟩ true gC).1
      = [Stage.filter, Stage.smooth, Stage.predict]
    ∧ (KVAE.predictFuture Ec Mc false xsC 1 0 ⟨"sample", "bogus"⟩ true gC).2
      = .error ("Invalid sample control for decoder: " ++ "bogus") := by
  exact ⟨rfl, rfl⟩

/-- C5 witness: the two halves at concrete inputs — an unknown decoder mode
leaves `elbo` error-free, and an unknown encoder mode fails with an empty
trace. -/
theorem c5_invalid_mode_placement_witness :
    (KVAE.elbo Ec Mc false xsC 1 ⟨"sample", "bogus"⟩ none 1 1 1 1 false true 0
      gC).2.isOk = true
    ∧ KVAE.elbo Ec Mc false xsC 1 ⟨"bogus", "mean"⟩ none 1 1 1 1 false true 0 gC
      = ([], .error ("Invalid sample control for encoder: " ++ "bogus")) := by
  exact ⟨((c5_invalid_mode_placement Ec Mc false xsC 1 0 ⟨"sample", "bogus"⟩
      none 1 1 1 1 false true 0 gC).2 rfl (by decide) (by decide)).1,
    ((c5_invalid_mode_placement Ec Mc false xsC 1 0 ⟨"bogus", "mean"⟩
      none 1 1 1 1 false true 0 gC).1 (by decide) (by decide)).1⟩

/-- C6 (amended): the outputs of `elbo` and `predict_future` are a
deterministic function of the call arguments together with the global generator
state — two runs agree whenever the ambient generator states agree. -/
theorem c6_global_state_determines (E : Externs) (M : SSM) (tr : Bool)
    (xs : List Vec) (N ns : ℕ) (sc : SampleControl) (mask : Option (List Vec))
    (w1 w2 w3 w4 : ℚ) (lw sym : Bool) (bi : ℕ) (g g2 : Rng)
    (hs : g.seed = g2.seed) (hp : g.pos = g2.pos) :
    KVAE.elbo E M tr xs N sc mask w1 w2 w3 w4 lw sym bi g
      = KVAE.elbo E M tr xs N sc mask w1 w2 w3 w4 lw sym bi g2
    ∧ KVAE.predictFuture E M tr xs N ns sc sym g
      = KVAE.predictFuture E M tr xs N ns sc sym g2 := by
  have hg : g = g2 := by
    cases g
    cases g2
    simp_all
  rw [hg]
  exact ⟨rfl, rfl⟩

/-- C6 witness: determinism at a concrete input. -/
theorem c6_global_state_determines_witness :
    KVAE.elbo Ec Mc false xsC 1 ⟨"sample", "mean"⟩ none 1 1 1 1 false true 0 gC
      = KVAE.elbo Ec Mc false xsC 1 ⟨"sample", "mean"⟩ none 1 1 1 1 false true 0
          ⟨gC.seed, gC.pos⟩ := by
  exact (c6_global_state_determines Ec Mc false xsC 1 0 ⟨"sample", "mean"⟩ none
    1 1 1 1 false true 0 gC ⟨gC.seed, gC.pos⟩ rfl rfl).1

/-- Helper: the objective assembled by `elboCore` equals the weighted sum with
the enabled KL term, whether or not `kl_weight` is zero (when it is zero the
source uses a zero stand-in, which the zero coefficient absorbs). -/
theorem elboCore_objective_decomposition (E : Externs) (M : SSM)
    (sc : SampleControl) (xs : List Vec) (N : ℕ) (mask : Option (List Vec))
    (w1 w2 w3 w4 : ℚ) (lw sym : Bool) (bi : ℕ) (asFeat : List Vec) (g : Rng) :
    (KVAE.elboCore E M sc xs N mask w1 w2 w3 w4 lw sym bi asFeat g).objective
      = w1 * (KVAE.elboCore E M sc xs N mask w1 w2 w3 w4 lw sym bi asFeat g).reconstructionObj
        + w2 * (KVAE.elboCore E M sc xs N mask w1 w2 w3 w4 lw sym bi asFeat g).regularizationObj
        + w4 * klTermOf E xs.length N xs
        + w3 * ((KVAE.elboCore E M sc xs N mask w1 w2 w3 w4 lw sym bi asFeat g).kalmanObservationLogLikelihood
            + (KVAE.elboCore E M sc xs N mask w1 w2 w3 w4 lw sym bi asFeat g).kalmanStateTransitionLogLikelihood
            - (KVAE.elboCore E M sc xs N mask w1 w2 w3 w4 lw sym bi asFeat g).kalmanPosteriorLogLikelihood) := by
  have e0 : (KVAE.elboCore E M sc xs N mask w1 w2 w3 w4 lw sym bi asFeat g).objective
      = w1 * (KVAE.elboCore E M sc xs N mask w1 w2 w3 w4 lw sym bi asFeat g).reconstructionObj
        + w2 * (KVAE.elboCore E M sc xs N mask w1 w2 w3 w4 lw sym bi asFeat g).regularizationObj
        + w4 * (KVAE.elboCore E M sc xs N mask w1 w2 w3 w4 lw sym bi asFeat g).klReg
        + w3 * ((KVAE.elboCore E M sc xs N mask w1 w2 w3 w4 lw sym bi asFeat g).kalmanObservationLogLikelihood
            + (KVAE.elboCore E M sc xs N mask w1 w2 w3 w4 lw sym bi asFeat g).kalmanStateTransitionLogLikelihood
            - (KVAE.elboCore E M sc xs N mask w1 w2 w3 w4 lw sym bi asFeat g).kalmanPosteriorLogLikelihood) := rfl
  have e1 : (KVAE.elboCore E M sc xs N mask w1 w2 w3 w4 lw sym bi asFeat g).klReg
      = if w4 ≠ 0 then klTermOf E xs.length N xs else 0 := rfl
  rw [e0, e1]
  by_cases h4 : w4 = 0
  · simp [h4]
  · rw [if_pos h4]

/-- C1 (amended): in every successful `elbo` call the three Kalman
log-likelihood terms are evaluated on one consistent latent trajectory,
`zs_sample`, together with the filter's per-step matrices — but that trajectory
is an independent per-step draw from the smoothed marginals made with fresh
post-smoother randomness, not the smoother's backward-sampled trajectory
`zs`. -/
theorem c1_consistent_marginal_sample (E : Externs) (M : SSM) (tr : Bool)
    (xs : List Vec) (N : ℕ) (sc : SampleControl) (mask : Option (List Vec))
    (w1 w2 w3 w4 : ℚ) (lw sym : Bool) (bi : ℕ) (g : Rng)
    (h : (KVAE.elbo E M tr xs N sc mask w1 w2 w3 w4 lw sym bi g).2.isOk = true) :
    (okLocals (KVAE.elbo E M tr xs N sc mask w1 w2 w3 w4 lw sym bi g)).zsSample
      = marginalResample E xs.length
          (okLocals (KVAE.elbo E M tr xs N sc mask w1 w2 w3 w4 lw sym bi g)).S.means
          (okLocals (KVAE.elbo E M tr xs N sc mask w1 w2 w3 w4 lw sym bi g)).S.covariances
          (drawTN (okLocals (KVAE.elbo E M tr xs N sc mask w1 w2 w3 w4 lw sym bi g)).S.gOut
            xs.length N).1
    ∧ (okLocals (KVAE.elbo E M tr xs N sc mask w1 w2 w3 w4 lw sym bi g)).kalmanObservationLogLikelihood
      = kalmanObservationLLAt E M xs.length N
          (okLocals (KVAE.elbo E M tr xs N sc mask w1 w2 w3 w4 lw sym bi g)).asFeat
          (okLocals (KVAE.elbo E M tr xs N sc mask w1 w2 w3 w4 lw sym bi g)).F.matCs
          (okLocals (KVAE.elbo E M tr xs N sc mask w1 w2 w3 w4 lw sym bi g)).zsSample
    ∧ (okLocals (KVAE.elbo E M tr xs N sc mask w1 w2 w3 w4 lw sym bi g)).kalmanStateTransitionLogLikelihood
      = M.stateTransitionLogLikelihood E xs.length N
          (okLocals (KVAE.elbo E M tr xs N sc mask w1 w2 w3 w4 lw sym bi g)).zsSample
          (okLocals (KVAE.elbo E M tr xs N sc mask w1 w2 w3 w4 lw sym bi g)).F.matAs
    ∧ (okLocals (KVAE.elbo E M tr xs N sc mask w1 w2 w3 w4 lw sym bi g)).kalmanPosteriorLogLikelihood
      = kalmanPosteriorLLAt E xs.length N
          (okLocals (KVAE.elbo E M tr xs N sc mask w1 w2 w3 w4 lw sym bi g)).S.means
          (okLocals (KVAE.elbo E M tr xs N sc mask w1 w2 w3 w4 lw sym bi g)).S.covariances
          (okLocals (KVAE.elbo E M tr xs N sc mask w1 w2 w3 w4 lw sym bi g)).zsSample := by
  by_cases h1 : sc.encoder = "sample"
  · unfold KVAE.elbo
    rw [if_pos h1]
    exact ⟨rfl, rfl, rfl, rfl⟩
  · by_cases h2 : sc.encoder = "mean"
    · cases tr with
      | true =>
        exfalso
        unfold KVAE.elbo at h
        rw [if_neg h1, if_pos h2, if_pos rfl] at h
        exact Bool.noConfusion h
      | false =>
        unfold KVAE.elbo
        rw [if_neg h1, if_pos h2]
        exact ⟨rfl, rfl, rfl, rfl⟩
    · exfalso
      unfold KVAE.elbo at h
      rw [if_neg h1, if_neg h2] at h
      exact Bool.noConfusion h

/-- C1 witness: the consistency conjuncts at a concrete input. -/
theorem c1_consistent_marginal_sample_witness :
    (okLocals (KVAE.elbo Ec Mc false xsC 1 ⟨"sample", "mean"⟩ none 1 1 1 1
        false true 0 gC)).kalmanObservationLogLikelihood
      = kalmanObservationLLAt Ec Mc xsC.length 1
          (okLocals (KVAE.elbo Ec Mc false xsC 1 ⟨"sample", "mean"⟩ none 1 1 1 1
            false true 0 gC)).asFeat
          (okLocals (KVAE.elbo Ec Mc false xsC 1 ⟨"sample", "mean"⟩ none 1 1 1 1
            false true 0 gC)).F.matCs
          (okLocals (KVAE.elbo Ec Mc false xsC 1 ⟨"sample", "mean"⟩ none 1 1 1 1
            false true 0 gC)).zsSample := by
  exact (c1_consistent_marginal_sample Ec Mc false xsC 1 ⟨"sample", "mean"⟩ none
    1 1 1 1 false true 0 gC rfl).2.1

/-- C1 counterexample: at a concrete input the observation log-likelihood
computed by `elbo` is `-3/2`, while the same observation term evaluated at the
smoother's backward-sampled trajectory `zs` is `-1/2` — the three terms are not
evaluated on the backward-sampled trajectory; an independently drawn sample is
substituted for it. -/
theorem c1_counterexample :
    (okLocals (KVAE.elbo Ec Mc false xsC 1 ⟨"sample", "mean"⟩ none 1 1 1 1
        false true 0 gC)).kalmanObservationLogLikelihood = -3/2
    ∧ kalmanObservationLLAt Ec Mc xsC.length 1
        (okLocals (KVAE.elbo Ec Mc false xsC 1 ⟨"sample", "mean"⟩ none 1 1 1 1
          false true 0 gC)).asFeat
        (okLocals (KVAE.elbo Ec Mc false xsC 1 ⟨"sample", "mean"⟩ none 1 1 1 1
          false true 0 gC)).F.matCs
        (okLocals (KVAE.elbo Ec Mc false xsC 1 ⟨"sample", "mean"⟩ none 1 1 1 1
          false true 0 gC)).S.zs = -1/2
    ∧ (okLocals (KVAE.elbo Ec Mc false xsC 1 ⟨"sample", "mean"⟩ none 1 1 1 1
        false true 0 gC)).kalmanObservationLogLikelihood
      ≠ kalmanObservationLLAt Ec Mc xsC.length 1
          (okLocals (KVAE.elbo Ec Mc false xsC 1 ⟨"sample", "mean"⟩ none 1 1 1 1
            false true 0 gC)).asFeat
          (okLocals (KVAE.elbo Ec Mc false xsC 1 ⟨"sample", "mean"⟩ none 1 1 1 1
            false true 0 gC)).F.matCs
          (okLocals (KVAE.elbo Ec Mc false xsC 1 ⟨"sample", "mean"⟩ none 1 1 1 1
            false true 0 gC)).S.zs := by
  have e1 : (okLocals (KVAE.elbo Ec Mc false xsC 1 ⟨"sample", "mean"⟩ none
      1 1 1 1 false true 0 gC)).kalmanObservationLogLikelihood = -3/2 := by
    with_unfolding_all rfl
  have e2 : kalmanObservationLLAt Ec Mc xsC.length 1
      (okLocals (KVAE.elbo Ec Mc false xsC 1 ⟨"sample", "mean"⟩ none 1 1 1 1
        false true 0 gC)).asFeat
      (okLocals (KVAE.elbo Ec Mc false xsC 1 ⟨"sample", "mean"⟩ none 1 1 1 1
        false true 0 gC)).F.matCs
      (okLocals (KVAE.elbo Ec Mc false xsC 1 ⟨"sample", "mean"⟩ none 1 1 1 1
        false true 0 gC)).S.zs = -1/2 := by
    with_unfolding_all rfl
  refine ⟨e1, e2, ?_⟩
  rw [e1, e2]
  norm_num

/-- C6 counterexample: two `elbo` runs with identical call arguments but
different ambient global-generator states produce different observation
log-likelihoods — the output is not determined by the call's inputs alone, so
randomness is not drawn from an injectable source passed into the call but from
implicit global random state. -/
theorem c6_counterexample :
    (okLocals (KVAE.elbo Ec Mc false xsC 1 ⟨"sample", "mean"⟩ none 1 1 1 1
        false true 0 gC)).kalmanObservationLogLikelihood = -3/2
    ∧ (okLocals (KVAE.elbo Ec Mc false xsC 1 ⟨"sample", "mean"⟩ none 1 1 1 1
        false true 0 gC2)).kalmanObservationLogLikelihood = -2
    ∧ (okLocals (KVAE.elbo Ec Mc false xsC 1 ⟨"sample", "mean"⟩ none 1 1 1 1
        false true 0 gC)).kalmanObservationLogLikelihood
      ≠ (okLocals (KVAE.elbo Ec Mc false xsC 1 ⟨"sample", "mean"⟩ none 1 1 1 1
        false true 0 gC2)).kalmanObservationLogLikelihood := by
  have e1 : (okLocals (KVAE.elbo Ec Mc false xsC 1 ⟨"sample", "mean"⟩ none
      1 1 1 1 false true 0 gC)).kalmanObservationLogLikelihood = -3/2 := by
    with_unfolding_all rfl
  have e2 : (okLocals (KVAE.elbo Ec Mc false xsC 1 ⟨"sample", "mean"⟩ none
      1 1 1 1 false true 0 gC2)).kalmanObservationLogLikelihood = -2 := by
    with_unfolding_all rfl
  refine ⟨e1, e2, ?_⟩
  rw [e1, e2]
  norm_num

/-- C2: every objective returned by a successful `elbo` call equals
`reconst_weight`·reconstruction + `regularization_weight`·regularization +
`kl_weight`·KL + `kalman_weight`·(observation + state-transition − posterior
log-likelihood), and each of the three Kalman likelihood terms is the
sum-over-time, mean-over-batch reduction of its per-step log-densities. -/
theorem c2_objective_decomposition (E : Externs) (M : SSM) (tr : Bool)
    (xs : List Vec) (N : ℕ) (sc : SampleControl) (mask : Option (List Vec))
    (w1 w2 w3 w4 : ℚ) (lw sym : Bool) (bi : ℕ) (g : Rng)
    (h : (KVAE.elbo E M tr xs N sc mask w1 w2 w3 w4 lw sym bi g).2.isOk = true) :
    (okLocals (KVAE.elbo E M tr xs N sc mask w1 w2 w3 w4 lw sym bi g)).objective
      = w1 * (okLocals (KVAE.elbo E M tr xs N sc mask w1 w2 w3 w4 lw sym bi g)).reconstructionObj
        + w2 * (okLocals (KVAE.elbo E M tr xs N sc mask w1 w2 w3 w4 lw sym bi g)).regularizationObj
        + w4 * klTermOf E xs.length N xs
        + w3 * ((okLocals (KVAE.elbo E M tr xs N sc mask w1 w2 w3 w4 lw sym bi g)).kalmanObservationLogLikelihood
            + (okLocals (KVAE.elbo E M tr xs N sc mask w1 w2 w3 w4 lw sym bi g)).kalmanStateTransitionLogLikelihood
            - (okLocals (KVAE.elbo E M tr xs N sc mask w1 w2 w3 w4 lw sym bi g)).kalmanPosteriorLogLikelihood)
    ∧ (okLocals (KVAE.elbo E M tr xs N sc mask w1 w2 w3 w4 lw sym bi g)).kalmanObservationLogLikelihood
      = sumTimeMeanBatch xs.length N (fun t b =>
          E.lp (vidx (okLocals (KVAE.elbo E M tr xs N sc mask w1 w2 w3 w4 lw sym bi g)).asFeat t b)
            (vidx (okLocals (KVAE.elbo E M tr xs N sc mask w1 w2 w3 w4 lw sym bi g)).F.matCs.dropLast t b
              * vidx (okLocals (KVAE.elbo E M tr xs N sc mask w1 w2 w3 w4 lw sym bi g)).zsSample t b)
            M.matR)
    ∧ (okLocals (KVAE.elbo E M tr xs N sc mask w1 w2 w3 w4 lw sym bi g)).kalmanStateTransitionLogLikelihood
      = sumTimeMeanBatch (xs.length - 1) N (fun t b =>
          E.lp (vidx (okLocals (KVAE.elbo E M tr xs N sc mask w1 w2 w3 w4 lw sym bi g)).zsSample (t + 1) b)
            (vidx (okLocals (KVAE.elbo E M tr xs N sc mask w1 w2 w3 w4 lw sym bi g)).F.matAs t b
              * vidx (okLocals (KVAE.elbo E M tr xs N sc mask w1 w2 w3 w4 lw sym bi g)).zsSample t b)
            M.matQ)
    ∧ (okLocals (KVAE.elbo E M tr xs N sc mask w1 w2 w3 w4 lw sym bi g)).kalmanPosteriorLogLikelihood
      = sumTimeMeanBatch xs.length N (fun t b =>
          E.lp (vidx (okLocals (KVAE.elbo E M tr xs N sc mask w1 w2 w3 w4 lw sym bi g)).zsSample t b)
            (vidx (okLocals (KVAE.elbo E M tr xs N sc mask w1 w2 w3 w4 lw sym bi g)).S.means t b)
            (vidx (okLocals (KVAE.elbo E M tr xs N sc mask w1 w2 w3 w4 lw sym bi g)).S.covariances t b)) := by
  by_cases h1 : sc.encoder = "sample"
  · unfold KVAE.elbo
    rw [if_pos h1]
    exact ⟨elboCore_objective_decomposition E M sc xs N mask w1 w2 w3 w4 lw sym
      bi _ _, rfl, rfl, rfl⟩
  · by_cases h2 : sc.encoder = "mean"
    · cases tr with
      | true =>
        exfalso
        unfold KVAE.elbo at h
        rw [if_neg h1, if_pos h2, if_pos rfl] at h
        exact Bool.noConfusion h
      | false =>
        unfold KVAE.elbo
        rw [if_neg h1, if_pos h2]
        exact ⟨elboCore_objective_decomposition E M sc xs N mask w1 w2 w3 w4 lw
          sym bi _ _, rfl, rfl, rfl⟩
    · exfalso
      unfold KVAE.elbo at h
      rw [if_neg h1, if_neg h2] at h
      exact Bool.noConfusion h

/-- C2 witness: the weighted-sum conjunct at a concrete input. -/
theorem c2_objective_decomposition_witness :
    (okLocals (KVAE.elbo Ec Mc false xsC 1 ⟨"sample", "mean"⟩ none 1 1 1 1
        false true 0 gC)).objective
      = 1 * (okLocals (KVAE.elbo Ec Mc false xsC 1 ⟨"sample", "mean"⟩ none
            1 1 1 1 false true 0 gC)).reconstructionObj
        + 1 * (okLocals (KVAE.elbo Ec Mc false xsC 1 ⟨"sample", "mean"⟩ none
            1 1 1 1 false true 0 gC)).regularizationObj
        + 1 * klTermOf Ec xsC.length 1 xsC
        + 1 * ((okLocals (KVAE.elbo Ec Mc false xsC 1 ⟨"sample", "mean"⟩ none
              1 1 1 1 false true 0 gC)).kalmanObservationLogLikelihood
            + (okLocals (KVAE.elbo Ec Mc false xsC 1 ⟨"sample", "mean"⟩ none
              1 1 1 1 false true 0 gC)).kalmanStateTransitionLogLikelihood
            - (okLocals (KVAE.elbo Ec Mc false xsC 1 ⟨"sample", "mean"⟩ none
              1 1 1 1 false true 0 gC)).kalmanPosteriorLogLikelihood) := by
  exact (c2_objective_decomposition Ec Mc false xsC 1 ⟨"sample", "mean"⟩ none
    1 1 1 1 false true 0 gC rfl).1

/-- C3: within one inference call the per-step matrices `A[t]`, `C[t]` computed
by the filter are the very values consumed by the smoother and (for
`predict_future`) by the future predictor: the smoother output stored in the
call's locals is `kalman_smooth` applied to the filter's matrix lists, the
rollout output is `predict_future` applied to them, and the extended matrix
lists returned by the rollout carry the filter's lists unchanged as their
historical prefix. -/
theorem c3_matrices_threaded (E : Externs) (M : SSM) (tr : Bool)
    (xs : List Vec) (N : ℕ) (sc : SampleControl) (mask : Option (List Vec))
    (w1 w2 w3 w4 : ℚ) (lw sym : Bool) (bi : ℕ) (g : Rng)
    (E2 : Externs) (M2 : SSM) (tr2 : Bool) (xs2 : List Vec) (N2 ns2 : ℕ)
    (sc2 : SampleControl) (sym2 : Bool) (g2 : Rng)
    (h : (KVAE.elbo E M tr xs N sc mask w1 w2 w3 w4 lw sym bi g).2.isOk = true)
    (h2 : (KVAE.predictFuture E2 M2 tr2 xs2 N2 ns2 sc2 sym2 g2).2.isOk = true) :
    ((okLocals (KVAE.elbo E M tr xs N sc mask w1 w2 w3 w4 lw sym bi g)).F
      = M.kalmanFilter (okLocals (KVAE.elbo E M tr xs N sc mask w1 w2 w3 w4 lw sym bi g)).asFeat
          sc mask lw sym bi
    ∧ ∃ gm, (okLocals (KVAE.elbo E M tr xs N sc mask w1 w2 w3 w4 lw sym bi g)).S
      = M.kalmanSmooth E (okLocals (KVAE.elbo E M tr xs N sc mask w1 w2 w3 w4 lw sym bi g)).asFeat
          (okLocals (KVAE.elbo E M tr xs N sc mask w1 w2 w3 w4 lw sym bi g)).F.filterMeans
          (okLocals (KVAE.elbo E M tr xs N sc mask w1 w2 w3 w4 lw sym bi g)).F.filterCovariances
          (okLocals (KVAE.elbo E M tr xs N sc mask w1 w2 w3 w4 lw sym bi g)).F.filterNextMeans
          (okLocals (KVAE.elbo E M tr xs N sc mask w1 w2 w3 w4 lw sym bi g)).F.filterNextCovariances
          (okLocals (KVAE.elbo E M tr xs N sc mask w1 w2 w3 w4 lw sym bi g)).F.matAs
          (okLocals (KVAE.elbo E M tr xs N sc mask w1 w2 w3 w4 lw sym bi g)).F.matCs
          sc sym bi N gm)
    ∧ ((okPredict (KVAE.predictFuture E2 M2 tr2 xs2 N2 ns2 sc2 sym2 g2)).F
      = M2.kalmanFilter (okPredict (KVAE.predictFuture E2 M2 tr2 xs2 N2 ns2 sc2 sym2 g2)).asFeat
          sc2 none false sym2 0
    ∧ (∃ gm, (okPredict (KVAE.predictFuture E2 M2 tr2 xs2 N2 ns2 sc2 sym2 g2)).S
      = M2.kalmanSmooth E2 (okPredict (KVAE.predictFuture E2 M2 tr2 xs2 N2 ns2 sc2 sym2 g2)).asFeat
          (okPredict (KVAE.predictFuture E2 M2 tr2 xs2 N2 ns2 sc2 sym2 g2)).F.filterMeans
          (okPredict (KVAE.predictFuture E2 M2 tr2 xs2 N2 ns2 sc2 sym2 g2)).F.filterCovariances
          (okPredict (KVAE.predictFuture E2 M2 tr2 xs2 N2 ns2 sc2 sym2 g2)).F.filterNextMeans
          (okPredict (KVAE.predictFuture E2 M2 tr2 xs2 N2 ns2 sc2 sym2 g2)).F.filterNextCovariances
          (okPredict (KVAE.predictFuture E2 M2 tr2 xs2 N2 ns2 sc2 sym2 g2)).F.matAs
          (okPredict (KVAE.predictFuture E2 M2 tr2 xs2 N2 ns2 sc2 sym2 g2)).F.matCs
          sc2 sym2 0 N2 gm)
    ∧ (okPredict (KVAE.predictFuture E2 M2 tr2 xs2 N2 ns2 sc2 sym2 g2)).P
      = M2.predictFuture sym2 (okPredict (KVAE.predictFuture E2 M2 tr2 xs2 N2 ns2 sc2 sym2 g2)).asFeat
          (okPredict (KVAE.predictFuture E2 M2 tr2 xs2 N2 ns2 sc2 sym2 g2)).S.means
          (okPredict (KVAE.predictFuture E2 M2 tr2 xs2 N2 ns2 sc2 sym2 g2)).S.covariances
          (okPredict (KVAE.predictFuture E2 M2 tr2 xs2 N2 ns2 sc2 sym2 g2)).F.filterNextMeans
          (okPredict (KVAE.predictFuture E2 M2 tr2 xs2 N2 ns2 sc2 sym2 g2)).F.filterNextCovariances
          (okPredict (KVAE.predictFuture E2 M2 tr2 xs2 N2 ns2 sc2 sym2 g2)).F.matAs
          (okPredict (KVAE.predictFuture E2 M2 tr2 xs2 N2 ns2 sc2 sym2 g2)).F.matCs
          ns2 sc2
    ∧ (okPredict (KVAE.predictFuture E2 M2 tr2 xs2 N2 ns2 sc2 sym2 g2)).P.matAsExt.take
        (okPredict (KVAE.predictFuture E2 M2 tr2 xs2 N2 ns2 sc2 sym2 g2)).F.matAs.length
      = (okPredict (KVAE.predictFuture E2 M2 tr2 xs2 N2 ns2 sc2 sym2 g2)).F.matAs
    ∧ (okPredict (KVAE.predictFuture E2 M2 tr2 xs2 N2 ns2 sc2 sym2 g2)).P.matCsExt.take
        (okPredict (KVAE.predictFuture E2 M2 tr2 xs2 N2 ns2 sc2 sym2 g2)).F.matCs.length
      = (okPredict (KVAE.predictFuture E2 M2 tr2 xs2 N2 ns2 sc2 sym2 g2)).F.matCs) := by
  constructor
  · by_cases he1 : sc.encoder = "sample"
    · unfold KVAE.elbo
      rw [if_pos he1]
      exact ⟨rfl, _, rfl⟩
    · by_cases he2 : sc.encoder = "mean"
      · cases tr with
        | true =>
          exfalso
          unfold KVAE.elbo at h
          rw [if_neg he1, if_pos he2, if_pos rfl] at h
          exact Bool.noConfusion h
        | false =>
          unfold KVAE.elbo
          rw [if_neg he1, if_pos he2]
          exact ⟨rfl, _, rfl⟩
      · exfalso
        unfold KVAE.elbo at h
        rw [if_neg he1, if_neg he2] at h
        exact Bool.noConfusion h
  · by_cases hp1 : sc2.encoder = "sample"
    · unfold KVAE.predictFuture
      rw [if_pos hp1]
      unfold KVAE.predictFutureCore
      by_cases hd1 : sc2.decoder = "sample"
      · rw [if_pos hd1]
        exact ⟨rfl, ⟨_, rfl⟩, rfl, List.take_left _ _, List.take_left _ _⟩
      · by_cases hd2 : sc2.decoder = "mean"
        · rw [if_neg hd1, if_pos hd2]
          exact ⟨rfl, ⟨_, rfl⟩, rfl, List.take_left _ _, List.take_left _ _⟩
        · exfalso
          unfold KVAE.predictFuture KVAE.predictFutureCore at h2
          rw [if_pos hp1, if_neg hd1, if_neg hd2] at h2
          exact Bool.noConfusion h2
    · by_cases hp2 : sc2.encoder = "mean"
      · unfold KVAE.predictFuture
        rw [if_neg hp1, if_pos hp2]
        unfold KVAE.predictFutureCore
        by_cases hd1 : sc2.decoder = "sample"
        · rw [if_pos hd1]
          exact ⟨rfl, ⟨_, rfl⟩, rfl, List.take_left _ _, List.take_left _ _⟩
        · by_cases hd2 : sc2.decoder = "mean"
          · rw [if_neg hd1, if_pos hd2]
            exact ⟨rfl, ⟨_, rfl⟩, rfl, List.take_left _ _, List.take_left _ _⟩
          · exfalso
            unfold KVAE.predictFuture KVAE.predictFutureCore at h2
            rw [if_neg hp1, if_pos hp2, if_neg hd1, if_neg hd2] at h2
            exact Bool.noConfusion h2
      · exfalso
        unfold KVAE.predictFuture at h2
        rw [if_neg hp1, if_neg hp2] at h2
        exact Bool.noConfusion h2

/-- C3 witness: the filter-to-smoother threading of `elbo` and the
prefix-preservation of the rollout's matrix lists at concrete inputs. -/
theorem c3_matrices_threaded_witness :
    (okLocals (KVAE.elbo Ec Mc false xsC 1 ⟨"sample", "mean"⟩ none 1 1 1 1
        false true 0 gC)).F
      = Mc.kalmanFilter (okLocals (KVAE.elbo Ec Mc false xsC 1
          ⟨"sample", "mean"⟩ none 1 1 1 1 false true 0 gC)).asFeat
          ⟨"sample", "mean"⟩ none false true 0
    ∧ (okPredict (KVAE.predictFuture Ec Mc false xsC 1 2 ⟨"sample", "mean"⟩
        true gC)).P.matAsExt.take
        (okPredict (KVAE.predictFuture Ec Mc false xsC 1 2 ⟨"sample", "mean"⟩
          true gC)).F.matAs.length
      = (okPredict (KVAE.predictFuture Ec Mc false xsC 1 2 ⟨"sample", "mean"⟩
          true gC)).F.matAs := by
  exact ⟨(c3_matrices_threaded Ec Mc false xsC 1 ⟨"sample", "mean"⟩ none 1 1 1 1
      false true 0 gC Ec Mc false xsC 1 2 ⟨"sample", "mean"⟩ true gC rfl
      rfl).1.1,
    (c3_matrices_threaded Ec Mc false xsC 1 ⟨"sample", "mean"⟩ none 1 1 1 1
      false true 0 gC Ec Mc false xsC 1 2 ⟨"sample", "mean"⟩ true gC rfl
      rfl).2.2.2.2.1⟩
